import Mathlib

/-!
Shallow embedding of `src/proxy.py` (Python-Proxy-Objects): a module-level
registry `real_objects : dict` guarded by `proxy_lock`, the functions
`register_module` / `unregister_module`, and the class `ProxyObject` whose
`__getattr__` resolves a service name against the registry at call time and
returns `partial(self.call_proxy_method, name)`.

Python values are modelled by the inductive `PyVal`; an object instance
carries its identity `oid` (the result of `id(...)`) and an equality key
`eqKey` driving `__eq__` (a plain object has `eqKey = oid`, a value-class may
share `eqKey` between distinct objects).  The registry dict is an association
list with the usual get/set/del operations.  Exceptions are modelled by
`Except PyErr`.  The locking structure of the code (the
`synchronized(proxy_lock)` decorator on the two registry writers, and the
bare `real_objects.get` reads inside the proxy) is modelled separately as
event traces over `LockEvent`.
-/

set_option autoImplicit false

/-- Behaviour of one method of a registered instance, deep-embedded so that
calls are executable: `addInts` is `add(x, y) = x + y`, the `const...`
constructors return a fixed value, and `raiseExc` raises a (user) exception
with the given message. -/
inductive MethodImpl where
  | addInts
  | constInt (i : Int)
  | constStr (s : String)
  | constNone
  | raiseExc (msg : String)
deriving DecidableEq

/-- A Python object instance: `oid` is its identity (`id(obj)`), `eqKey` is
the key compared by `__eq__` (equal to `oid` for a plain object), and
`methods` is its table of callable members. -/
structure Instance where
  oid : Nat
  eqKey : Nat
  methods : List (String × MethodImpl)
deriving DecidableEq

/-- The Python values this program manipulates: `None`, booleans, ints,
strings, and object instances. -/
inductive PyVal where
  | none
  | bool (b : Bool)
  | int (i : Int)
  | str (s : String)
  | inst (a : Instance)
deriving DecidableEq

/-- Exceptions raised along the modelled code paths. -/
inductive PyErr where
  | moduleUnavailable (msg : String)
  | noSuchMethod (msg : String)
  | attributeError (msg : String)
  | notImplementedError (msg : String)
  | userError (msg : String)
deriving DecidableEq

deriving instance DecidableEq for Except

/-- Python `is` (object identity), restricted to the comparisons the claims
need: `None` and booleans are singletons, instances compare by `oid`; for
the remaining value kinds identity is implementation-defined in Python and
unused here, so the model returns `false`. -/
def pyIs : PyVal → PyVal → Bool
  | .none, .none => true
  | .bool a, .bool b => a == b
  | .inst a, .inst b => a.oid == b.oid
  | _, _ => false

/-- Python `==` on the modelled values: `None` equals only `None`, primitive
values compare by value, instances compare by their `__eq__` key. -/
def pyEq : PyVal → PyVal → Bool
  | .none, .none => true
  | .bool a, .bool b => a == b
  | .int a, .int b => a == b
  | .str a, .str b => a == b
  | .inst a, .inst b => a.eqKey == b.eqKey
  | _, _ => false

/-- The registry dict `real_objects`, modelled as an association list with
unique keys (every operation below preserves key uniqueness, and Python
dicts enforce it). -/
def Registry := List (String × PyVal)

/-- `d.get(k)` / `d[k]`: the value stored under `k`, if any. -/
def dictGet : Registry → String → Option PyVal
  | [], _ => Option.none
  | (k, w) :: rest, n => if k == n then some w else dictGet rest n

/-- `d[k] = v`: replace the first binding of `k`, or append a new one. -/
def dictSet : Registry → String → PyVal → Registry
  | [], n, v => [(n, v)]
  | (k, w) :: rest, n, v =>
      if k == n then (n, v) :: rest else (k, w) :: dictSet rest n v

/-- `del d[k]`: remove the binding(s) of `k`. -/
def dictDel : Registry → String → Registry
  | [], _ => []
  | (k, w) :: rest, n =>
      if k == n then dictDel rest n else (k, w) :: dictDel rest n

/-- `k in d`: membership test. -/
def dictContains (reg : Registry) (n : String) : Bool :=
  (dictGet reg n).isSome

/-- `register_module(module_service_name, module)` (src/proxy.py lines
30-34): if the name is present, delete it, then store the module under the
name.  Total, so it never fails.  The lock wrapper is modelled separately
by `register_module_trace`. -/
def register_module (module_service_name : String) (module : PyVal)
    (reg : Registry) : Registry :=
  dictSet
    (if dictContains reg module_service_name then
       dictDel reg module_service_name
     else reg)
    module_service_name module

/-- `unregister_module(module_service_name, module)` (src/proxy.py lines
36-39): delete the entry only when the name is present and the stored value
compares `==` to `module`.  Total, so it never fails. -/
def unregister_module (module_service_name : String) (module : PyVal)
    (reg : Registry) : Registry :=
  match dictGet reg module_service_name with
  | some cur =>
      if pyEq cur module then dictDel reg module_service_name else reg
  | Option.none => reg

/-- Member lookup on an instance: the first entry of its method table with
the requested name. -/
def methodLookup (a : Instance) (name : String) : Option MethodImpl :=
  (a.methods.find? (fun kv => kv.1 == name)).map (fun kv => kv.2)

/-- `hasattr(obj, name)` for the modelled values: an instance exposes
exactly the members of its method table; the claims never access built-in
attributes of `None` or of primitive values, so those are modelled as
having none. -/
def pyHasattr (v : PyVal) (name : String) : Bool :=
  match v with
  | .inst a => (methodLookup a name).isSome
  | _ => false

/-- `getattr(obj, method_name)`: look the method up on the object, raising
`AttributeError` when it is missing (in particular on `None`, the value
`real_objects.get` yields for an absent name). -/
def pyGetattr (v : PyVal) (name : String) : Except PyErr MethodImpl :=
  match v with
  | .inst a =>
      match methodLookup a name with
      | some impl => Except.ok impl
      | Option.none =>
          Except.error (PyErr.attributeError ("object has no attribute " ++ name))
  | .none =>
      Except.error (PyErr.attributeError ("NoneType object has no attribute " ++ name))
  | _ =>
      Except.error (PyErr.attributeError ("object has no attribute " ++ name))

/-- Run one deep-embedded method body on the supplied positional and
keyword arguments (the sync path forwards both). -/
def MethodImpl.run : MethodImpl → List PyVal → List (String × PyVal) →
    Except PyErr PyVal
  | .addInts, [PyVal.int x, PyVal.int y], [] => Except.ok (PyVal.int (x + y))
  | .addInts, _, _ => Except.error (PyErr.userError "TypeError: add takes two ints")
  | .constInt i, _, _ => Except.ok (PyVal.int i)
  | .constStr s, _, _ => Except.ok (PyVal.str s)
  | .constNone, _, _ => Except.ok PyVal.none
  | .raiseExc msg, _, _ => Except.error (PyErr.userError msg)

/-- `'callback_success' in kwargs` (src/proxy.py line 97). -/
def kwargsContains (kwargs : List (String × PyVal)) (k : String) : Bool :=
  kwargs.any (fun kv => kv.1 == k)

/-- `ProxyObject.__init__(self, service_name)` stores only the name:
a proxy is the name, nothing else, so nothing is cached between calls. -/
structure ProxyObject where
  service_name : String
deriving DecidableEq

/-- `ProxyObject.init service_name` embeds `ProxyObject.__init__`: pure, it
takes no registry argument, so construction cannot read or modify the
registry and cannot fail. -/
def ProxyObject.init (service_name : String) : ProxyObject :=
  ⟨service_name⟩

/-- The value `partial(self.call_proxy_method, name)` returned by
`__getattr__`: it captures the proxy (hence only the service name) and the
attribute name — not the resolved instance. -/
structure BoundMethod where
  self : ProxyObject
  method_name : String
deriving DecidableEq

/-- `ProxyObject.__getattr__` (src/proxy.py lines 87-94), evaluated against
the registry state `reg` current at attribute-access time:
`obj = real_objects.get(self._service_name)` (absent gives Python `None`,
modelled by defaulting to `PyVal.none`); `if obj is None` raises
`ModuleUnavailableException`; `if hasattr(obj, name) is None` raises
`NoSuchMethodException` — the condition is kept exactly as written, an
identity test of a bool against `None`; otherwise return
`partial(self.call_proxy_method, name)`. -/
def ProxyObject.getattr (reg : Registry) (p : ProxyObject) (name : String) :
    Except PyErr BoundMethod :=
  let obj : PyVal := (dictGet reg p.service_name).getD PyVal.none
  if pyIs obj PyVal.none then
    Except.error (PyErr.moduleUnavailable
      ("no module currently registered for " ++ p.service_name))
  else if pyIs (PyVal.bool (pyHasattr obj name)) PyVal.none then
    Except.error (PyErr.noSuchMethod
      ("service " ++ p.service_name ++ " does not respond to the method " ++ name))
  else
    Except.ok ⟨p, name⟩

/-- `ProxyObject._call_sync` (src/proxy.py lines 105-107), evaluated against
the registry state current at invocation time: re-fetch the object with
`real_objects.get` (no availability check) and call
`getattr(obj, method_name)(*args, **kwargs)`. -/
def ProxyObject.call_sync (reg : Registry) (p : ProxyObject)
    (method_name : String) (args : List PyVal)
    (kwargs : List (String × PyVal)) : Except PyErr PyVal :=
  let obj : PyVal := (dictGet reg p.service_name).getD PyVal.none
  match pyGetattr obj method_name with
  | Except.ok impl => impl.run args kwargs
  | Except.error e => Except.error e

/-- `ProxyObject._call_async` (src/proxy.py lines 102-103): unconditionally
raises `NotImplementedError` (message kept verbatim, including the typo). -/
def ProxyObject.call_async (_reg : Registry) (_p : ProxyObject)
    (_method_name : String) (_args : List PyVal)
    (_kwargs : List (String × PyVal)) : Except PyErr PyVal :=
  Except.error (PyErr.notImplementedError
    "Asynchrnonous callbacks are not yet implemented")

/-- `ProxyObject.call_proxy_method` (src/proxy.py lines 96-100): dispatch on
the presence of the `callback_success` keyword; the async branch has no
`return`, so a normal completion of `_call_async` would yield `None`. -/
def ProxyObject.call_proxy_method (reg : Registry) (p : ProxyObject)
    (method_name : String) (args : List PyVal)
    (kwargs : List (String × PyVal)) : Except PyErr PyVal :=
  if kwargsContains kwargs "callback_success" then
    match ProxyObject.call_async reg p method_name args kwargs with
    | Except.ok _ => Except.ok PyVal.none
    | Except.error e => Except.error e
  else
    ProxyObject.call_sync reg p method_name args kwargs

/-- Invoking a previously obtained `partial(self.call_proxy_method, name)`
against the registry state current at that moment. -/
def BoundMethod.call (reg : Registry) (b : BoundMethod) (args : List PyVal)
    (kwargs : List (String × PyVal)) : Except PyErr PyVal :=
  ProxyObject.call_proxy_method reg b.self b.method_name args kwargs

/-- The two-step expression `p.m(args)` with the registry possibly changing
between the attribute access (`regAccess`) and the invocation of the bound
callable (`regInvoke`). -/
def proxyCall (regAccess regInvoke : Registry) (p : ProxyObject)
    (m : String) (args : List PyVal) (kwargs : List (String × PyVal)) :
    Except PyErr PyVal :=
  match ProxyObject.getattr regAccess p m with
  | Except.ok b => b.call regInvoke args kwargs
  | Except.error e => Except.error e

/-- The single expression `p.m(args)`: attribute access and invocation see
the same registry state. -/
def proxyInvoke (reg : Registry) (p : ProxyObject) (m : String)
    (args : List PyVal) (kwargs : List (String × PyVal)) :
    Except PyErr PyVal :=
  proxyCall reg reg p m args kwargs

/-- Result-shape test used to state that `__getattr__` never raises
`NoSuchMethodException`. -/
def isNoSuchMethodRes : Except PyErr BoundMethod → Bool
  | Except.error (PyErr.noSuchMethod _) => true
  | _ => false

/-- The behaviour the amended claim C5 ascribes to `unregister`: the lookup
of `N` afterwards yields nothing exactly when the stored value compared
`==` to the argument, and is unchanged otherwise. -/
def unregisterLookupSpec (reg : Registry) (N : String) (X : PyVal) :
    Option PyVal :=
  match dictGet reg N with
  | some cur => if pyEq cur X then Option.none else some cur
  | Option.none => Option.none

/-- Atomic events relevant to the locking discipline: acquiring/releasing
`proxy_lock` and the individual accesses to the `real_objects` table. -/
inductive LockEvent where
  | acquire
  | release
  | tableRead (key : String)
  | tableWrite (key : String)
  | tableDel (key : String)
deriving DecidableEq

/-- The `synchronized(proxy_lock)` decorator (src/proxy.py lines 16-27):
`lock.acquire()`, run the body, `lock.release()` in a `finally`. -/
def synchronizedTrace (body : List LockEvent) : List LockEvent :=
  LockEvent.acquire :: body ++ [LockEvent.release]

/-- Table accesses performed by the body of `register_module` on registry
state `reg`: the `in` membership read, the conditional `del`, the store. -/
def register_module_body_trace (reg : Registry) (n : String) :
    List LockEvent :=
  LockEvent.tableRead n ::
    ((if dictContains reg n then [LockEvent.tableDel n] else []) ++
      [LockEvent.tableWrite n])

/-- Full event trace of `register_module`: its body runs under the
`synchronized(proxy_lock)` wrapper. -/
def register_module_trace (reg : Registry) (n : String) : List LockEvent :=
  synchronizedTrace (register_module_body_trace reg n)

/-- Table accesses performed by the body of `unregister_module`: the `in`
read; when present, the `real_objects[name]` read for the `==` comparison
and, on a match, the `del`. -/
def unregister_module_body_trace (reg : Registry) (n : String) (v : PyVal) :
    List LockEvent :=
  LockEvent.tableRead n ::
    (match dictGet reg n with
     | some cur =>
         LockEvent.tableRead n ::
           (if pyEq cur v then [LockEvent.tableDel n] else [])
     | Option.none => [])

/-- Full event trace of `unregister_module`: body under the lock wrapper. -/
def unregister_module_trace (reg : Registry) (n : String) (v : PyVal) :
    List LockEvent :=
  synchronizedTrace (unregister_module_body_trace reg n v)

/-- Event trace of the registry lookup performed by proxy method
resolution: `real_objects.get(self._service_name)` in `__getattr__`
(line 88) and again in `_call_sync` (line 106) — a bare table read,
not wrapped by `synchronized(proxy_lock)`. -/
def proxy_lookup_trace (n : String) : List LockEvent :=
  [LockEvent.tableRead n]

/-- Scan a trace keeping the lock-hold depth; every table access must
happen at positive depth. -/
def heldScan : Nat → List LockEvent → Bool
  | _, [] => true
  | d, LockEvent.acquire :: rest => heldScan (d + 1) rest
  | d, LockEvent.release :: rest => heldScan (d - 1) rest
  | d, LockEvent.tableRead _ :: rest => decide (0 < d) && heldScan d rest
  | d, LockEvent.tableWrite _ :: rest => decide (0 < d) && heldScan d rest
  | d, LockEvent.tableDel _ :: rest => decide (0 < d) && heldScan d rest

/-- A trace executes under the lock when every table access happens while
the lock is held. -/
def underLock (t : List LockEvent) : Bool :=
  heldScan 0 t

theorem dictGet_dictSet_self (reg : Registry) (n : String) (v : PyVal) :
    dictGet (dictSet reg n v) n = some v := by
  induction reg with
  | nil => simp [dictGet, dictSet]
  | cons kv rest ih =>
      obtain ⟨k, w⟩ := kv
      by_cases h : k == n
      · simp [dictGet, dictSet, h]
      · simp [dictGet, dictSet, h, ih]

theorem dictGet_dictSet_other (reg : Registry) (n m : String) (v : PyVal)
    (h : m ≠ n) :
    dictGet (dictSet reg n v) m = dictGet reg m := by
  induction reg with
  | nil => simp [dictGet, dictSet, Ne.symm h]
  | cons kv rest ih =>
      obtain ⟨k, w⟩ := kv
      by_cases hk : k = n
      · subst hk
        simp [dictGet, dictSet, Ne.symm h]
      · simp [dictGet, dictSet, hk, ih]

theorem dictGet_dictDel_self (reg : Registry) (n : String) :
    dictGet (dictDel reg n) n = Option.none := by
  induction reg with
  | nil => simp [dictGet, dictDel]
  | cons kv rest ih =>
      obtain ⟨k, w⟩ := kv
      by_cases h : k == n
      · simp [dictDel, h, ih]
      · simp [dictGet, dictDel, h, ih]

theorem dictGet_dictDel_other (reg : Registry) (n m : String)
    (h : m ≠ n) :
    dictGet (dictDel reg n) m = dictGet reg m := by
  induction reg with
  | nil => simp [dictDel]
  | cons kv rest ih =>
      obtain ⟨k, w⟩ := kv
      by_cases hk : k = n
      · subst hk
        simp [dictGet, dictDel, Ne.symm h, ih]
      · simp [dictGet, dictDel, hk, ih]

theorem dictGet_register_self (reg : Registry) (n : String) (v : PyVal) :
    dictGet (register_module n v reg) n = some v := by
  unfold register_module
  exact dictGet_dictSet_self _ n v

theorem dictGet_register_other (reg : Registry) (n m : String) (v : PyVal)
    (h : m ≠ n) :
    dictGet (register_module n v reg) m = dictGet reg m := by
  unfold register_module
  by_cases hc : dictContains reg n
  · rw [if_pos hc, dictGet_dictSet_other _ _ _ _ h, dictGet_dictDel_other _ _ _ h]
  · rw [if_neg hc]
    exact dictGet_dictSet_other _ _ _ _ h

theorem pyEq_refl : ∀ v : PyVal, pyEq v v = true
  | .none => rfl
  | .bool b => by simp [pyEq]
  | .int i => by simp [pyEq]
  | .str s => by simp [pyEq]
  | .inst a => by simp [pyEq]

theorem pyIs_bool_none (b : Bool) : pyIs (PyVal.bool b) PyVal.none = false :=
  rfl

theorem pyIs_inst_none (a : Instance) : pyIs (PyVal.inst a) PyVal.none = false :=
  rfl

/-- `__getattr__` collapses to a two-way branch: because
`hasattr(obj, name) is None` compares a bool against `None` and is
therefore always false, the `NoSuchMethodException` arm is dead code and
every access on a non-`None` resolved object yields the bound callable. -/
theorem getattr_eq (reg : Registry) (p : ProxyObject) (name : String) :
    ProxyObject.getattr reg p name =
      if pyIs ((dictGet reg p.service_name).getD PyVal.none) PyVal.none then
        Except.error (PyErr.moduleUnavailable
          ("no module currently registered for " ++ p.service_name))
      else Except.ok ⟨p, name⟩ := by
  unfold ProxyObject.getattr
  by_cases h : pyIs ((dictGet reg p.service_name).getD PyVal.none) PyVal.none
  · simp [h]
  · simp [h, pyIs_bool_none]

theorem getattr_never_noSuchMethod (reg : Registry) (p : ProxyObject)
    (name : String) :
    isNoSuchMethodRes (ProxyObject.getattr reg p name) = false := by
  rw [getattr_eq]
  by_cases h : pyIs ((dictGet reg p.service_name).getD PyVal.none) PyVal.none
  · simp [h, isNoSuchMethodRes]
  · simp [h, isNoSuchMethodRes]

theorem getattr_absent (reg : Registry) (N m : String)
    (h : dictGet reg N = Option.none) :
    ProxyObject.getattr reg ⟨N⟩ m =
      Except.error (PyErr.moduleUnavailable
        ("no module currently registered for " ++ N)) := by
  rw [getattr_eq]
  simp [h, pyIs]

theorem getattr_stored_none (reg : Registry) (N m : String)
    (h : dictGet reg N = some PyVal.none) :
    ProxyObject.getattr reg ⟨N⟩ m =
      Except.error (PyErr.moduleUnavailable
        ("no module currently registered for " ++ N)) := by
  rw [getattr_eq]
  simp [h, pyIs]

theorem getattr_inst (reg : Registry) (N m : String) (a : Instance)
    (h : dictGet reg N = some (PyVal.inst a)) :
    ProxyObject.getattr reg ⟨N⟩ m = Except.ok ⟨⟨N⟩, m⟩ := by
  rw [getattr_eq]
  simp [h, pyIs_inst_none]

theorem call_sync_inst (reg : Registry) (N m : String) (a : Instance)
    (impl : MethodImpl) (args : List PyVal) (kwargs : List (String × PyVal))
    (h : dictGet reg N = some (PyVal.inst a))
    (hm : methodLookup a m = some impl) :
    ProxyObject.call_sync reg ⟨N⟩ m args kwargs = impl.run args kwargs := by
  unfold ProxyObject.call_sync
  simp [h, pyGetattr, hm]

theorem call_sync_absent (reg : Registry) (N m : String) (args : List PyVal)
    (kwargs : List (String × PyVal)) (h : dictGet reg N = Option.none) :
    ProxyObject.call_sync reg ⟨N⟩ m args kwargs =
      Except.error (PyErr.attributeError
        ("NoneType object has no attribute " ++ m)) := by
  unfold ProxyObject.call_sync
  simp [h, pyGetattr]

theorem call_proxy_method_sync (reg : Registry) (p : ProxyObject) (m : String)
    (args : List PyVal) (kwargs : List (String × PyVal))
    (hk : kwargsContains kwargs "callback_success" = false) :
    ProxyObject.call_proxy_method reg p m args kwargs =
      ProxyObject.call_sync reg p m args kwargs := by
  unfold ProxyObject.call_proxy_method
  simp [hk]

theorem proxyInvoke_absent (reg : Registry) (N m : String) (args : List PyVal)
    (kwargs : List (String × PyVal)) (h : dictGet reg N = Option.none) :
    proxyInvoke reg ⟨N⟩ m args kwargs =
      Except.error (PyErr.moduleUnavailable
        ("no module currently registered for " ++ N)) := by
  unfold proxyInvoke proxyCall
  rw [getattr_absent reg N m h]

theorem proxyInvoke_stored_none (reg : Registry) (N m : String)
    (args : List PyVal) (kwargs : List (String × PyVal))
    (h : dictGet reg N = some PyVal.none) :
    proxyInvoke reg ⟨N⟩ m args kwargs =
      Except.error (PyErr.moduleUnavailable
        ("no module currently registered for " ++ N)) := by
  unfold proxyInvoke proxyCall
  rw [getattr_stored_none reg N m h]

theorem proxyInvoke_sync_inst (reg : Registry) (N m : String) (a : Instance)
    (impl : MethodImpl) (args : List PyVal) (kwargs : List (String × PyVal))
    (h : dictGet reg N = some (PyVal.inst a))
    (hm : methodLookup a m = some impl)
    (hk : kwargsContains kwargs "callback_success" = false) :
    proxyInvoke reg ⟨N⟩ m args kwargs = impl.run args kwargs := by
  unfold proxyInvoke proxyCall
  rw [getattr_inst reg N m a h]
  show ProxyObject.call_proxy_method reg ⟨N⟩ m args kwargs = impl.run args kwargs
  rw [call_proxy_method_sync reg ⟨N⟩ m args kwargs hk]
  exact call_sync_inst reg N m a impl args kwargs h hm

theorem unregister_lookup_eq_spec (N : String) (X : PyVal) (reg : Registry) :
    dictGet (unregister_module N X reg) N = unregisterLookupSpec reg N X := by
  unfold unregister_module unregisterLookupSpec
  cases hg : dictGet reg N with
  | none => simp [hg]
  | some cur =>
      by_cases hp : pyEq cur X
      · simp [hg, hp, dictGet_dictDel_self]
      · simp [hg, hp]

/-- C1: the claim says a method access for a member the registered instance
does not expose fails with `NoSuchMethodException` carrying the service and
method names (and the class docstring promises the same).  The code cannot
do this: `hasattr(obj, name) is None` compares a bool against `None` and is
always false, so `__getattr__` never raises `NoSuchMethodException` (first
conjunct); on the concrete failing input — an instance with no methods
registered under `svc`, then `Proxy(svc).foo()` — the attribute access
succeeds with a bound callable and the invocation raises `AttributeError`
instead (second and third conjuncts). -/
theorem C1_noSuchMethod_unreachable :
    (∀ (reg : Registry) (p : ProxyObject) (n : String),
        isNoSuchMethodRes (ProxyObject.getattr reg p n) = false)
    ∧ ProxyObject.getattr (register_module "svc" (PyVal.inst ⟨1, 1, []⟩) [])
        ⟨"svc"⟩ "foo" = Except.ok ⟨⟨"svc"⟩, "foo"⟩
    ∧ proxyInvoke (register_module "svc" (PyVal.inst ⟨1, 1, []⟩) [])
        ⟨"svc"⟩ "foo" [] []
        = Except.error (PyErr.attributeError "object has no attribute foo") :=
  ⟨getattr_never_noSuchMethod, by decide, by decide⟩

/-- C2: with no instance registered under `N`, both the attribute access
and the full method invocation on a proxy bound to `N` fail with
`ModuleUnavailableException` carrying the service name `N`. -/
theorem C2_unregistered_fails_moduleUnavailable (reg : Registry)
    (N m : String) (args : List PyVal) (kwargs : List (String × PyVal))
    (h : dictGet reg N = Option.none) :
    ProxyObject.getattr reg ⟨N⟩ m =
      Except.error (PyErr.moduleUnavailable
        ("no module currently registered for " ++ N))
    ∧ proxyInvoke reg ⟨N⟩ m args kwargs =
      Except.error (PyErr.moduleUnavailable
        ("no module currently registered for " ++ N)) :=
  ⟨getattr_absent reg N m h, proxyInvoke_absent reg N m args kwargs h⟩

theorem C2_witness :
    ProxyObject.getattr [] ⟨"svc"⟩ "foo" =
      Except.error (PyErr.moduleUnavailable
        ("no module currently registered for " ++ "svc"))
    ∧ proxyInvoke [] ⟨"svc"⟩ "foo" [] [] =
      Except.error (PyErr.moduleUnavailable
        ("no module currently registered for " ++ "svc")) :=
  C2_unregistered_fails_moduleUnavailable [] "svc" "foo" [] [] rfl

/-- C3: synchronous pass-through.  With instance `a` registered under `N`
exposing method `m` with behaviour `impl`, a call without the
`callback_success` keyword returns exactly what `impl` returns on the same
arguments — including, since `MethodImpl.run` is an `Except`, propagating
the very exception the method raises, unwrapped and unsuppressed. -/
theorem C3_sync_passthrough (reg : Registry) (N m : String) (a : Instance)
    (impl : MethodImpl) (args : List PyVal) (kwargs : List (String × PyVal))
    (hreg : dictGet reg N = some (PyVal.inst a))
    (hm : methodLookup a m = some impl)
    (hk : kwargsContains kwargs "callback_success" = false) :
    proxyInvoke reg ⟨N⟩ m args kwargs = impl.run args kwargs :=
  proxyInvoke_sync_inst reg N m a impl args kwargs hreg hm hk

theorem C3_witness :
    proxyInvoke
      (register_module "svc" (PyVal.inst ⟨1, 1, [("add", MethodImpl.addInts)]⟩) [])
      ⟨"svc"⟩ "add" [PyVal.int 2, PyVal.int 3] [] = Except.ok (PyVal.int 5) :=
  C3_sync_passthrough
    (register_module "svc" (PyVal.inst ⟨1, 1, [("add", MethodImpl.addInts)]⟩) [])
    "svc" "add" ⟨1, 1, [("add", MethodImpl.addInts)]⟩ MethodImpl.addInts
    [PyVal.int 2, PyVal.int 3] [] (by decide) (by decide) rfl

/-- C4: `register_module` is unconditional and last-wins: after
`register(N, A)` then `register(N, B)` the lookup of `N` yields `B`, and a
single registration always installs its instance regardless of prior
occupancy (`register_module` is a total function, so it never fails). -/
theorem C4_register_last_wins (N : String) (A B : PyVal) (reg : Registry) :
    dictGet (register_module N B (register_module N A reg)) N = some B
    ∧ dictGet (register_module N A reg) N = some A :=
  ⟨dictGet_register_self _ _ _, dictGet_register_self _ _ _⟩

/-- C5 counterexample: the claim says unregistration takes effect only when
the stored instance is identity-equal to the argument, but the code
compares with `==`.  Registering the instance with identity 1 and equality
key 7 and then unregistering with a distinct object (identity 2, same
equality key 7) removes the entry even though the two objects are not
identical (`pyIs` is false). -/
theorem C5_counterexample :
    dictGet (unregister_module "n" (PyVal.inst ⟨2, 7, []⟩)
        (register_module "n" (PyVal.inst ⟨1, 7, []⟩) [])) "n" = Option.none
    ∧ pyIs (PyVal.inst ⟨1, 7, []⟩) (PyVal.inst ⟨2, 7, []⟩) = false := by
  decide

/-- C5 (amended): `unregister(N, X)` removes the entry for `N` exactly when
the stored value compares equal to `X` under the language's `==` (first
conjunct, against the spec-side description `unregisterLookupSpec`); the
claim's two scenarios hold whenever the two instances do not compare
`==`-equal: after `register(N, a)`, `register(N, b)`, `unregister(N, a)`
the lookup still yields `b`, and after `register(N, a)`, `unregister(N, a)`
the lookup is absent. -/
theorem C5_unregister_eq_semantics (N : String) (X : PyVal) (reg : Registry)
    (a b : PyVal) (hne : pyEq b a = false) :
    dictGet (unregister_module N X reg) N = unregisterLookupSpec reg N X
    ∧ dictGet (unregister_module N a
        (register_module N b (register_module N a []))) N = some b
    ∧ dictGet (unregister_module N a (register_module N a [])) N =
        Option.none := by
  refine ⟨unregister_lookup_eq_spec N X reg, ?_, ?_⟩
  · have h1 : dictGet (register_module N b (register_module N a [])) N =
        some b := dictGet_register_self _ _ _
    simp [unregister_module, h1, hne]
  · have h1 : dictGet (register_module N a []) N = some a :=
      dictGet_register_self _ _ _
    simp [unregister_module, h1, pyEq_refl, dictGet_dictDel_self]

theorem C5_witness :
    dictGet (unregister_module "n" (PyVal.int 0) []) "n" =
      unregisterLookupSpec [] "n" (PyVal.int 0)
    ∧ dictGet (unregister_module "n" (PyVal.inst ⟨1, 1, []⟩)
        (register_module "n" (PyVal.inst ⟨2, 2, []⟩)
          (register_module "n" (PyVal.inst ⟨1, 1, []⟩) []))) "n" =
        some (PyVal.inst ⟨2, 2, []⟩)
    ∧ dictGet (unregister_module "n" (PyVal.inst ⟨1, 1, []⟩)
        (register_module "n" (PyVal.inst ⟨1, 1, []⟩) [])) "n" =
        Option.none :=
  C5_unregister_eq_semantics "n" (PyVal.int 0) []
    (PyVal.inst ⟨1, 1, []⟩) (PyVal.inst ⟨2, 2, []⟩) (by decide)

/-- C6: late binding.  Construction (`ProxyObject.init`) is pure — it takes
no registry argument, stores only the name and cannot fail (first
conjunct).  For one and the same proxy value, a call made while `N` is
unregistered fails with `ModuleUnavailableException` (second conjunct), and
a call made after `register(N, a)` runs `a`'s method (third conjunct): the
proxy caches neither absence nor a resolved instance. -/
theorem C6_late_binding (N m : String) (reg : Registry) (a : Instance)
    (impl : MethodImpl) (args : List PyVal) (kwargs : List (String × PyVal))
    (h0 : dictGet reg N = Option.none)
    (hm : methodLookup a m = some impl)
    (hk : kwargsContains kwargs "callback_success" = false) :
    ProxyObject.init N = ⟨N⟩
    ∧ proxyInvoke reg (ProxyObject.init N) m args kwargs =
        Except.error (PyErr.moduleUnavailable
          ("no module currently registered for " ++ N))
    ∧ proxyInvoke (register_module N (PyVal.inst a) reg)
        (ProxyObject.init N) m args kwargs = impl.run args kwargs := by
  refine ⟨rfl, ?_, ?_⟩
  · exact proxyInvoke_absent reg N m args kwargs h0
  · exact proxyInvoke_sync_inst (register_module N (PyVal.inst a) reg) N m a
      impl args kwargs (dictGet_register_self reg N (PyVal.inst a)) hm hk

theorem C6_witness :
    ProxyObject.init "svc" = ⟨"svc"⟩
    ∧ proxyInvoke [] (ProxyObject.init "svc") "add"
        [PyVal.int 2, PyVal.int 3] [] =
        Except.error (PyErr.moduleUnavailable
          ("no module currently registered for " ++ "svc"))
    ∧ proxyInvoke
        (register_module "svc" (PyVal.inst ⟨1, 1, [("add", MethodImpl.addInts)]⟩) [])
        (ProxyObject.init "svc") "add" [PyVal.int 2, PyVal.int 3] [] =
        MethodImpl.addInts.run [PyVal.int 2, PyVal.int 3] [] :=
  C6_late_binding "svc" "add" [] ⟨1, 1, [("add", MethodImpl.addInts)]⟩
    MethodImpl.addInts [PyVal.int 2, PyVal.int 3] [] rfl (by decide) rfl

/-- C7: the claim says an asynchronous call (`callback_success` supplied)
returns immediately and eventually delivers `5` to the success callback.
The code's `_call_async` is unimplemented and raises `NotImplementedError`
on the calling thread instead — evaluated here at the claim's own input:
`add` registered under `svc`, `Proxy(svc).add(2, 3, callback_success=s,
callback_failure=f)`. -/
theorem C7_async_raises_notImplemented :
    proxyInvoke
      (register_module "svc" (PyVal.inst ⟨1, 1, [("add", MethodImpl.addInts)]⟩) [])
      ⟨"svc"⟩ "add" [PyVal.int 2, PyVal.int 3]
      [("callback_success", PyVal.str "s"), ("callback_failure", PyVal.str "f")]
      = Except.error (PyErr.notImplementedError
          "Asynchrnonous callbacks are not yet implemented") := by
  decide

/-- C8: registering Python `None` under `N` makes `N` behave as
unregistered at the proxy surface: `real_objects.get` yields the stored
`None`, and the `obj is None` availability test cannot tell it from an
absent entry, so every access and invocation raises
`ModuleUnavailableException`. -/
theorem C8_register_none_behaves_unregistered (reg : Registry)
    (N m : String) (args : List PyVal) (kwargs : List (String × PyVal)) :
    ProxyObject.getattr (register_module N PyVal.none reg) ⟨N⟩ m =
      Except.error (PyErr.moduleUnavailable
        ("no module currently registered for " ++ N))
    ∧ proxyInvoke (register_module N PyVal.none reg) ⟨N⟩ m args kwargs =
      Except.error (PyErr.moduleUnavailable
        ("no module currently registered for " ++ N)) :=
  ⟨getattr_stored_none _ N m (dictGet_register_self reg N PyVal.none),
   proxyInvoke_stored_none _ N m args kwargs
     (dictGet_register_self reg N PyVal.none)⟩

/-- C9: a bound callable obtained while instance `a` was registered under
`N` (the access succeeds, first conjunct) and invoked after the entry for
`N` was removed raises `AttributeError` — `_call_sync` re-resolves with
`real_objects.get` and calls `getattr` on the resulting `None` without any
availability check, so no `ModuleUnavailableException` is raised. -/
theorem C9_stale_bound_call_attributeError (reg1 reg2 : Registry)
    (N m : String) (a : Instance) (args : List PyVal)
    (kwargs : List (String × PyVal))
    (h1 : dictGet reg1 N = some (PyVal.inst a))
    (h2 : dictGet reg2 N = Option.none)
    (hk : kwargsContains kwargs "callback_success" = false) :
    ProxyObject.getattr reg1 ⟨N⟩ m = Except.ok ⟨⟨N⟩, m⟩
    ∧ proxyCall reg1 reg2 ⟨N⟩ m args kwargs =
      Except.error (PyErr.attributeError
        ("NoneType object has no attribute " ++ m)) := by
  refine ⟨getattr_inst reg1 N m a h1, ?_⟩
  unfold proxyCall
  rw [getattr_inst reg1 N m a h1]
  show ProxyObject.call_proxy_method reg2 ⟨N⟩ m args kwargs = _
  rw [call_proxy_method_sync reg2 ⟨N⟩ m args kwargs hk]
  exact call_sync_absent reg2 N m args kwargs h2

theorem C9_witness :
    ProxyObject.getattr
      (register_module "svc" (PyVal.inst ⟨1, 1, [("add", MethodImpl.addInts)]⟩) [])
      ⟨"svc"⟩ "add" = Except.ok ⟨⟨"svc"⟩, "add"⟩
    ∧ proxyCall
        (register_module "svc" (PyVal.inst ⟨1, 1, [("add", MethodImpl.addInts)]⟩) [])
        (unregister_module "svc" (PyVal.inst ⟨1, 1, [("add", MethodImpl.addInts)]⟩)
          (register_module "svc" (PyVal.inst ⟨1, 1, [("add", MethodImpl.addInts)]⟩) []))
        ⟨"svc"⟩ "add" [PyVal.int 2, PyVal.int 3] [] =
        Except.error (PyErr.attributeError
          ("NoneType object has no attribute " ++ "add")) :=
  C9_stale_bound_call_attributeError
    (register_module "svc" (PyVal.inst ⟨1, 1, [("add", MethodImpl.addInts)]⟩) [])
    (unregister_module "svc" (PyVal.inst ⟨1, 1, [("add", MethodImpl.addInts)]⟩)
      (register_module "svc" (PyVal.inst ⟨1, 1, [("add", MethodImpl.addInts)]⟩) []))
    "svc" "add" ⟨1, 1, [("add", MethodImpl.addInts)]⟩
    [PyVal.int 2, PyVal.int 3] [] (by decide) (by decide) rfl

/-- C10 counterexample: the claim says every registry operation, including
the lookup performed by proxy method resolution, executes under the single
exclusive lock.  The trace of that lookup (`real_objects.get` in
`__getattr__` / `_call_sync`) is a bare table read with no
acquire/release, so at the concrete name `svc` it does not execute under
the lock. -/
theorem C10_counterexample :
    underLock (proxy_lookup_trace "svc") = false := by
  decide

/-- C10 (amended): `register_module` and `unregister_module` do execute
under the single exclusive `proxy_lock` (their `synchronized` traces keep
every table access inside an acquire/release pair, for every registry
state and argument), but the lookup performed by proxy method resolution
reads the table without acquiring the lock. -/
theorem C10_lock_discipline (reg : Registry) (n : String) (v : PyVal) :
    underLock (register_module_trace reg n) = true
    ∧ underLock (unregister_module_trace reg n v) = true
    ∧ underLock (proxy_lookup_trace n) = false := by
  refine ⟨?_, ?_, rfl⟩
  · unfold register_module_trace synchronizedTrace register_module_body_trace
    by_cases hc : dictContains reg n
    · simp [hc, underLock, heldScan]
    · simp [hc, underLock, heldScan]
  · unfold unregister_module_trace synchronizedTrace
      unregister_module_body_trace
    cases hg : dictGet reg n with
    | none => simp [underLock, heldScan]
    | some cur =>
        by_cases hp : pyEq cur v
        · simp [hp, underLock, heldScan]
        · simp [hp, underLock, heldScan]
